import Mathlib

/-!
Shallow embedding of the temu-clone order/inventory/coupon/review logic.

The definitions below are translated from:
* `src/backend/src/controllers/order.controller.js` (two concatenated
  `OrderController` implementations; the first spans lines 1-1213, the
  second lines 1220-1659),
* the `orderSchema.pre('save')` totals hook in `src/unnamed/part_003`,
* `CartController.calculateDiscount` in `src/unnamed/part_001`,
* `src/backend/src/controllers/review.controller.js`.

Monetary and stock values are modelled as `ℚ` / `ℤ` (the JS code uses
doubles; no floating-point rounding is relevant at the inputs considered,
and the arithmetic structure is preserved exactly).
-/

namespace TemuClone

/-! ## Inventory (order.controller.js first implementation, §4.1 of the spec) -/

/-- One inventory sub-record (`inventory.quantity/reserved/sold`). -/
structure Inv where
  quantity : ℤ
  reserved : ℤ
  sold : ℤ
deriving Repr, DecidableEq

/-- The three inventory actions dispatched through `updateInventory`. -/
inductive InvAction
  | reserve
  | sell
  | release
deriving Repr, DecidableEq

/-- Modelled from the spec: the `Product.updateInventory` model method is
called throughout `order.controller.js` (lines 337, 632, 668, 764) but its
body is not under `src/`.  Spec §4.1: `reserve` increments `reserved` by the
quantity; `sell` decrements both `quantity` and `reserved` and increments
`sold`; `release` decrements `reserved` without touching `quantity`. -/
def applyInvAction : InvAction → ℤ → Inv → Inv
  | .reserve, q, inv => { inv with reserved := inv.reserved + q }
  | .sell, q, inv =>
      { quantity := inv.quantity - q, reserved := inv.reserved - q, sold := inv.sold + q }
  | .release, q, inv => { inv with reserved := inv.reserved - q }

/-- A product variant: own SKU and inventory sub-record. -/
structure Variant where
  sku : String
  inventory : Inv
deriving Repr, DecidableEq

/-- The slice of a product document used by the inventory logic:
`inventory`, `inventory.allowBackorders`, and the variant list. -/
structure Product where
  inventory : Inv
  allowBackorders : Bool
  variants : List Variant
deriving Repr, DecidableEq

/-- `product.variants.find(v => v.sku === item.variantSku)`
(order.controller.js line 87). -/
def findVariant (p : Product) (sku : String) : Option Variant :=
  p.variants.find? (fun v => v.sku == sku)

/-- Modelled from the spec: dispatch of `updateInventory(quantity,
variantSku, action)` onto the base record or the named variant's record
(spec §3: each variant has its own inventory sub-record). -/
def updateInventory (p : Product) (q : ℤ) (vsku : Option String) (a : InvAction) : Product :=
  match vsku with
  | none => { p with inventory := applyInvAction a q p.inventory }
  | some sku =>
      { p with
        variants := p.variants.map (fun v =>
          if v.sku == sku then { v with inventory := applyInvAction a q v.inventory } else v) }

/-- Errors of the order-creation availability check. -/
inductive ReserveError
  | variantNotFound
  | insufficientStock
deriving Repr, DecidableEq

/-- The per-item availability check and reservation of
`OrderController.createOrder` (order.controller.js lines 86-108: variant
lookup, `availableStock = quantity - reserved`, rejection when
`availableStock < quantity` and `!product.inventory.allowBackorders`)
followed by the reserve call of the reserve loop (lines 333-340). -/
def reserveItem (p : Product) (vsku : Option String) (q : ℤ) : Except ReserveError Product :=
  match vsku with
  | none =>
      if p.inventory.quantity - p.inventory.reserved < q ∧ p.allowBackorders = false then
        .error .insufficientStock
      else
        .ok (updateInventory p q none .reserve)
  | some sku =>
      match findVariant p sku with
      | none => .error .variantNotFound
      | some v =>
          if v.inventory.quantity - v.inventory.reserved < q ∧ p.allowBackorders = false then
            .error .insufficientStock
          else
            .ok (updateInventory p q (some sku) .reserve)

/-! ## Sequences of inventory calls (claim C3) -/

/-- One reserve/sell/release call against a single inventory record. -/
structure StockOp where
  action : InvAction
  qty : ℕ
deriving Repr, DecidableEq

/-- One inventory call: `reserve` is guarded by the availability check of
`createOrder` (the only check anywhere in the code); `sell` (delivered
branch, line 668) and `release` (cancelled branches, lines 632 and 764) are
performed unconditionally.  `none` means the call was rejected. -/
def stepStock (allowBackorders : Bool) (inv : Inv) (op : StockOp) : Option Inv :=
  match op.action with
  | .reserve =>
      if inv.quantity - inv.reserved < (op.qty : ℤ) ∧ allowBackorders = false then none
      else some (applyInvAction .reserve (op.qty : ℤ) inv)
  | .sell => some (applyInvAction .sell (op.qty : ℤ) inv)
  | .release => some (applyInvAction .release (op.qty : ℤ) inv)

/-- Run a sequence of calls; a rejected call leaves the record unchanged,
so the result is the effect of exactly the individually-successful calls. -/
def runStock (allowBackorders : Bool) (inv : Inv) (ops : List StockOp) : Inv :=
  ops.foldl (fun i op => (stepStock allowBackorders i op).getD i) inv

/-- Boolean guard under which the C3 invariant is actually preserved:
every `sell`/`release` releases at most the currently reserved amount
(the code itself never checks this). -/
def guardedOps (allowBackorders : Bool) (inv : Inv) : List StockOp → Bool
  | [] => true
  | op :: rest =>
      (match op.action with
        | .reserve => true
        | .sell => decide ((op.qty : ℤ) ≤ inv.reserved)
        | .release => decide ((op.qty : ℤ) ≤ inv.reserved)) &&
      guardedOps allowBackorders ((stepStock allowBackorders inv op).getD inv) rest

/-! ## Order status state machine (order.controller.js lines 593-611) -/

/-- Order statuses (union of the enums used by the two documents). -/
inductive OrderStatus
  | pending
  | confirmed
  | processing
  | ready_for_shipment
  | shipped
  | out_for_delivery
  | delivered
  | cancelled
  | refunded
deriving Repr, DecidableEq

/-- The `validTransitions` table of `OrderController.updateOrderStatus`
(order.controller.js lines 594-604), copied verbatim. -/
def validTransitions : OrderStatus → List OrderStatus
  | .pending => [.confirmed, .cancelled]
  | .confirmed => [.processing, .cancelled]
  | .processing => [.ready_for_shipment, .cancelled]
  | .ready_for_shipment => [.shipped]
  | .shipped => [.out_for_delivery, .delivered]
  | .out_for_delivery => [.delivered]
  | .delivered => [.refunded]
  | .cancelled => []
  | .refunded => []

/-- `validTransitions[order.status]?.includes(status)`
(order.controller.js line 606). -/
def statusUpdateAllowed (s t : OrderStatus) : Bool :=
  (validTransitions s).contains t

/-- The status written by `updateOrderStatus`: the target when the
transition is in the table, otherwise the order is left unchanged
(the handler returns 400 before any write). -/
def applyStatusUpdate (s t : OrderStatus) : OrderStatus :=
  if statusUpdateAllowed s t then t else s

/-- The transition table as the spec words it (spec §4.4 / claim C8): the
forward chain `pending → confirmed → processing → ready_for_shipment →
shipped → out_for_delivery → delivered → refunded`, with `cancelled`
reachable only from `pending`, `confirmed`, or `processing`.  Stated from
the spec's words for comparison with `validTransitions`. -/
def specTransitionTable : OrderStatus → List OrderStatus
  | .pending => [.confirmed, .cancelled]
  | .confirmed => [.processing, .cancelled]
  | .processing => [.ready_for_shipment, .cancelled]
  | .ready_for_shipment => [.shipped]
  | .shipped => [.out_for_delivery]
  | .out_for_delivery => [.delivered]
  | .delivered => [.refunded]
  | .cancelled => []
  | .refunded => []

/-! ## Cancellation lifecycle (claims C4, C5) -/

/-- Inventory records are addressed by product id and optional variant SKU. -/
abbrev InvKey := ℕ × Option String

/-- The inventory side of the document store: one `Inv` per key. -/
def Store := InvKey → Inv

/-- The slice of an order line item used by the restock loops
(order.controller.js lines 629-635 and 761-767). -/
structure OrderLineItem where
  product : ℕ
  variantSku : Option String
  quantity : ℕ
deriving Repr, DecidableEq

/-- The inventory record an item's `updateInventory` call targets. -/
def lineKey (it : OrderLineItem) : InvKey := (it.product, it.variantSku)

/-- A single-document inventory update at one key. -/
def storeUpdate (s : Store) (k : InvKey) (q : ℤ) (a : InvAction) : Store :=
  fun k2 => if k2 = k then applyInvAction a q (s k2) else s k2

/-- The reserve loop of `createOrder` (order.controller.js lines 333-340):
one `updateInventory(quantity, variantSku, 'reserve')` per item. -/
def reserveAll (items : List OrderLineItem) (s : Store) : Store :=
  items.foldl (fun acc it => storeUpdate acc (lineKey it) (it.quantity : ℤ) InvAction.reserve) s

/-- The restock loops of the cancelled branch of `updateOrderStatus`
(lines 629-635) and of `cancelOrder` (lines 761-767): one
`updateInventory(quantity, variantSku, 'release')` per item. -/
def releaseAll (items : List OrderLineItem) (s : Store) : Store :=
  items.foldl (fun acc it => storeUpdate acc (lineKey it) (it.quantity : ℤ) InvAction.release) s

/-- Total quantity the order holds against one inventory key. -/
def keyDemand (items : List OrderLineItem) (k : InvKey) : ℤ :=
  items.foldl (fun acc it => acc + (if lineKey it = k then (it.quantity : ℤ) else 0)) 0

/-- Modelled from the spec: the Order model's `canCancel` virtual (used at
order.controller.js line 744) is not under `src/`.  Spec §4.4: cancellation
is permitted only while status is `pending`, `confirmed` or `processing`. -/
def canCancel (s : OrderStatus) : Bool :=
  s == .pending || s == .confirmed || s == .processing

/-- Order status plus the inventory store, as seen by the two
cancellation entry points. -/
structure LifeState where
  status : OrderStatus
  store : Store

/-- The two cancellation entry points: the customer `cancelOrder` handler
and the admin `updateOrderStatus` call with target `cancelled`. -/
inductive CancelPath
  | customer
  | admin
deriving Repr, DecidableEq

/-- One cancellation attempt.  The customer path (order.controller.js lines
743-767) is guarded by `canCancel` and releases every item; the admin path
(lines 606-635) is guarded by `validTransitions[status].includes('cancelled')`
and also releases every item.  A rejected attempt changes nothing. -/
def cancelAttempt (items : List OrderLineItem) (st : LifeState) (path : CancelPath) : LifeState :=
  match path with
  | .customer =>
      if canCancel st.status then
        { status := .cancelled, store := releaseAll items st.store }
      else st
  | .admin =>
      if (validTransitions st.status).contains .cancelled then
        { status := .cancelled, store := releaseAll items st.store }
      else st

/-- A sequence of cancellation attempts through either entry point. -/
def runCancels (items : List OrderLineItem) (st : LifeState) (paths : List CancelPath) : LifeState :=
  paths.foldl (cancelAttempt items) st

/-! ## The second `cancelOrder` implementation (order.controller.js
lines 1442-1484, claim C5) -/

/-- `payment.status` enum of the order schema in `src/unnamed/part_003`. -/
inductive PayStatus
  | pending
  | processing
  | completed
  | failed
  | refunded
  | cancelled
deriving Repr, DecidableEq

/-- The order fields read and written by the second `cancelOrder`. -/
structure OrderPay where
  status : OrderStatus
  paymentStatus : PayStatus
deriving Repr, DecidableEq

/-- Rejection of the second `cancelOrder`. -/
inductive CancelError
  | notCancellable
deriving Repr, DecidableEq

/-- The second `cancelOrder` implementation (order.controller.js lines
1442-1484), faithfully including its statement order: the guard admits only
`pending` and `confirmed`; then `order.status = 'cancelled'` and
`order.payment.status = 'cancelled'` are assigned, and only afterwards is
`order.payment.status === 'completed'` tested to decide whether
`processRefund` runs.  The boolean in the result records whether the refund
branch was taken. -/
def cancelOrderSecond (o : OrderPay) : Except CancelError (OrderPay × Bool) :=
  if o.status = .pending ∨ o.status = .confirmed then
    let o1 : OrderPay := { status := .cancelled, paymentStatus := .cancelled }
    let refundTaken := o1.paymentStatus == PayStatus.completed
    .ok ((if refundTaken then { o1 with paymentStatus := .refunded } else o1), refundTaken)
  else
    .error .notCancellable

/-- Whether a `cancelOrderSecond` run invoked the refund. -/
def refundFlag : Except CancelError (OrderPay × Bool) → Bool
  | .ok (_, b) => b
  | .error _ => false

/-! ## Order totals (`orderSchema.pre('save')` hook, `src/unnamed/part_003`
lines 384-399, claim C1) -/

/-- The line-item fields the totals hook reads: `item.subtotal` (required
by the schema), `item.tax` and `item.discount?.amount` (optional,
defaulted to 0 by `|| 0`). -/
structure TotalsItem where
  subtotal : ℚ
  tax : Option ℚ
  discountAmount : Option ℚ
deriving Repr, DecidableEq

/-- The stored `totals` / `payment.amount` sub-document. -/
structure OrderTotals where
  items : ℚ
  shipping : ℚ
  tax : ℚ
  discount : ℚ
  grandTotal : ℚ
deriving Repr, DecidableEq

/-- The totals recompute of the pre-save hook: each component is reduced
from the stored line items (`shipping` from `this.shipping.cost || 0`), and
`grandTotal = items + shipping + tax - discount` with no rounding and no
floor at zero. -/
def computeTotals (items : List TotalsItem) (shippingCost : Option ℚ) : OrderTotals :=
  let base : OrderTotals :=
    { items := items.foldl (fun s it => s + it.subtotal) 0
      shipping := shippingCost.getD 0
      tax := items.foldl (fun s it => s + it.tax.getD 0) 0
      discount := items.foldl (fun s it => s + it.discountAmount.getD 0) 0
      grandTotal := 0 }
  { base with grandTotal := base.items + base.shipping + base.tax - base.discount }

/-- The order fields involved in the pre-save hook. -/
structure OrderDoc where
  items : List TotalsItem
  shippingCost : Option ℚ
  totals : OrderTotals
  paymentAmount : OrderTotals
deriving Repr, DecidableEq

/-- The `pre('save')` hook: recompute `totals` from the stored line items
and overwrite `payment.amount` with it (part_003 lines 384-398). -/
def orderPreSave (o : OrderDoc) : OrderDoc :=
  let t := computeTotals o.items o.shippingCost
  { o with totals := t, paymentAmount := t }

/-! ## Coupons (order.controller.js lines 174-260 and
`CartController.calculateDiscount`, claims C6, C7) -/

/-- `coupon.discountType` as branched on by `createOrder` (only
`'percentage'` and `'fixed'` are distinguished). -/
inductive DiscountType
  | percentage
  | fixed
deriving Repr, DecidableEq

/-- The coupon fields read by `createOrder`.  Codes are modelled already
upper-cased (the controller upper-cases the request code before lookup).
Dates are instants on an integer timeline. -/
structure Coupon where
  code : String
  isActive : Bool
  startDate : ℤ
  endDate : Option ℤ
  usageLimit : Option ℕ
  usedCount : ℕ
  userUsageLimit : Option ℕ
  minimumPurchase : Option ℚ
  discountType : DiscountType
  discountValue : ℚ
  maxDiscountAmount : Option ℚ
  appliesToShipping : Bool
deriving Repr, DecidableEq

/-- The `Coupon.findOne` query of `createOrder` (lines 175-184): the code
matches, `isActive` is true, `startDate` has passed, and `endDate` is
absent or not yet passed.  A coupon failing any of these is simply not
found. -/
def findActiveCoupon (coupons : List Coupon) (code : String) (now : ℤ) : Option Coupon :=
  coupons.find? (fun c =>
    c.code == code && c.isActive && decide (c.startDate ≤ now) &&
      (match c.endDate with
        | none => true
        | some e => decide (now ≤ e)))

/-- `if (coupon.usageLimit && coupon.usedCount >= coupon.usageLimit)`
(line 188); a zero limit is falsy in JS and skips the check. -/
def usageLimitExceeded (c : Coupon) : Bool :=
  match c.usageLimit with
  | none => false
  | some l => l != 0 && decide (l ≤ c.usedCount)

/-- The per-user check (lines 195-207): `userUsageCount >= userUsageLimit`
for a set (truthy) limit; `userUsage` is the caller's prior order count
with this coupon code. -/
def userLimitExceeded (c : Coupon) (userUsage : ℕ) : Bool :=
  match c.userUsageLimit with
  | none => false
  | some m => m != 0 && decide (m ≤ userUsage)

/-- `if (coupon.minimumPurchase && subtotal < coupon.minimumPurchase)`
(line 210). -/
def belowMinimumPurchase (c : Coupon) (subtotal : ℚ) : Bool :=
  match c.minimumPurchase with
  | none => false
  | some p => p != 0 && decide (subtotal < p)

/-- Outcome of the coupon section of `createOrder` (lines 174-215):
`noCoupon` is the silent path taken when the lookup finds nothing — the
order proceeds without any discount and without an error response; the
three `rejected*` outcomes are the 400 responses; `applied` carries the
validated coupon into the discount computation. -/
inductive CouponOutcome
  | noCoupon
  | rejectedUsageLimit
  | rejectedUserLimit
  | rejectedMinimumPurchase
  | applied (c : Coupon)
deriving Repr, DecidableEq

/-- The coupon validation chain of `createOrder`, in source order. -/
def couponCheck (coupons : List Coupon) (code : String) (now : ℤ) (userUsage : ℕ)
    (subtotal : ℚ) : CouponOutcome :=
  match findActiveCoupon coupons code now with
  | none => .noCoupon
  | some c =>
      if usageLimitExceeded c then .rejectedUsageLimit
      else if userLimitExceeded c userUsage then .rejectedUserLimit
      else if belowMinimumPurchase c subtotal then .rejectedMinimumPurchase
      else .applied c

/-- The `couponDiscount` computation of `createOrder` (lines 217-225):
`percentage` is `subtotal * value/100`, capped by a truthy
`maxDiscountAmount`; `fixed` is the full `discountValue`, with no cap at
the subtotal. -/
def couponDiscountAmount (c : Coupon) (subtotal : ℚ) : ℚ :=
  match c.discountType with
  | .percentage =>
      let d := subtotal * (c.discountValue / 100)
      (match c.maxDiscountAmount with
        | none => d
        | some m => if m ≠ 0 then min d m else d)
  | .fixed => c.discountValue

/-- Application of a non-shipping coupon to the subtotal (line 231):
`subtotal = Math.max(0, subtotal - couponDiscount)`; a shipping coupon
leaves the subtotal alone. -/
def applyCouponToSubtotal (c : Coupon) (subtotal : ℚ) : ℚ :=
  if c.appliesToShipping then subtotal
  else max 0 (subtotal - couponDiscountAmount c subtotal)

/-- The `shippingDiscount` computation for shipping coupons (lines
251-258): `percentage` is `shippingCost * value/100` with no
`maxDiscountAmount` cap; `fixed` is `Math.min(value, shippingCost)`. -/
def shippingDiscountAmount (c : Coupon) (shippingCost : ℚ) : ℚ :=
  match c.discountType with
  | .percentage => shippingCost * (c.discountValue / 100)
  | .fixed => min c.discountValue shippingCost

/-- `finalShippingCost = Math.max(0, shippingCost - shippingDiscount)`
(line 260); only a shipping coupon produces a shipping discount. -/
def finalShippingCost (c : Option Coupon) (shippingCost : ℚ) : ℚ :=
  match c with
  | none => shippingCost
  | some c =>
      if c.appliesToShipping then max 0 (shippingCost - shippingDiscountAmount c shippingCost)
      else shippingCost

/-- `coupon.discountType` of the cart controller's demo coupon table
(`src/unnamed/part_001`), which also has a `'shipping'` type. -/
inductive CartDiscountType
  | percentage
  | fixed
  | shipping
deriving Repr, DecidableEq

/-- The coupon shape consumed by `CartController.calculateDiscount`. -/
structure CartCoupon where
  discountType : CartDiscountType
  value : ℚ
  minPurchase : ℚ
deriving Repr, DecidableEq

/-- `CartController.calculateDiscount` (`src/unnamed/part_001` lines
911-926): 0 below the minimum purchase; `percentage` is
`subtotal * value/100`; `fixed` is `Math.min(value, subtotal)`;
`shipping` returns 0 (handled separately). -/
def calculateDiscount (c : CartCoupon) (subtotal : ℚ) : ℚ :=
  if subtotal < c.minPurchase then 0
  else
    match c.discountType with
    | .percentage => subtotal * (c.value / 100)
    | .fixed => min c.value subtotal
    | .shipping => 0

/-! ## Review ratings (review.controller.js, claims C9, C10) -/

/-- Review moderation statuses. -/
inductive ReviewStatus
  | pending
  | approved
  | rejected
  | flagged
deriving Repr, DecidableEq

/-- The review fields used by the rating aggregation. -/
structure Review where
  id : ℕ
  product : ℕ
  rating : ℕ
  status : ReviewStatus
deriving Repr, DecidableEq

/-- The stored `ratings` sub-document of a product: `ratings.average`,
`ratings.count` and `ratings.distribution` (keys 1-5). -/
structure RatingAgg where
  average : ℚ
  count : ℕ
  distribution : ℕ → ℕ

/-- The product slice written by `updateProductRating`. -/
structure ProductDoc where
  ratings : RatingAgg

/-- `parseFloat(averageRating.toFixed(1))`: round to one decimal place. -/
def round1 (q : ℚ) : ℚ := ((round (q * 10) : ℤ) : ℚ) / 10

/-- `Review.find({ product, status: 'approved' })`
(review.controller.js lines 1053-1056). -/
def approvedFor (reviews : List Review) (pid : ℕ) : List Review :=
  reviews.filter (fun r => r.product == pid && r.status == ReviewStatus.approved)

/-- `ReviewController.updateProductRating` (review.controller.js lines
1051-1090): fetch the approved reviews of the product; if there are none,
return early without writing; otherwise reduce the total rating, average
it, round to one decimal, rebuild the 1-5 distribution by incrementing the
bucket of each review's rating, and `$set` all three fields. -/
def updateProductRating (reviews : List Review) (pid : ℕ) (p : ProductDoc) : ProductDoc :=
  let approved := approvedFor reviews pid
  if approved.length = 0 then p
  else
    let total : ℕ := approved.foldl (fun s r => s + r.rating) 0
    let averageRating : ℚ := (total : ℚ) / (approved.length : ℚ)
    { ratings :=
        { average := round1 averageRating
          count := approved.length
          distribution :=
            approved.foldl (fun d r => Function.update d r.rating (d r.rating + 1))
              (fun _ => 0) } }

/-- Moderation action of `ReviewController.moderateReview`. -/
inductive ModAction
  | approve
  | reject
deriving Repr, DecidableEq

/-- `ReviewController.moderateReview` (review.controller.js lines 960-996):
the review must exist and be `pending`; its status becomes `approved` or
`rejected`; only approval triggers `updateProductRating`. -/
def moderateReview (reviews : List Review) (rid : ℕ) (act : ModAction) (p : ProductDoc) :
    Option (List Review × ProductDoc) :=
  (reviews.find? (fun r => r.id == rid)).bind (fun r =>
    if r.status = ReviewStatus.pending then
      let newStatus := match act with
        | .approve => ReviewStatus.approved
        | .reject => ReviewStatus.rejected
      let reviews2 := reviews.map (fun x =>
        if x.id == rid then { x with status := newStatus } else x)
      some (reviews2,
        match act with
        | .approve => updateProductRating reviews2 r.product p
        | .reject => p)
    else none)

/-- `ReviewController.deleteReview` (review.controller.js lines 310-337):
delete the review, then run `updateProductRating` only when the deleted
review was `approved`. -/
def deleteReview (reviews : List Review) (rid : ℕ) (p : ProductDoc) :
    Option (List Review × ProductDoc) :=
  (reviews.find? (fun r => r.id == rid)).bind (fun r =>
    let reviews2 := reviews.filter (fun x => x.id != rid)
    some (reviews2,
      if r.status = ReviewStatus.approved then updateProductRating reviews2 r.product p else p))

/-! ## Helper lemmas -/

/-- Reducing a list with `fun s x => s + f x` is adding the mapped sum. -/
theorem foldl_add_eq {α M : Type _} [AddCommMonoid M] (f : α → M) (l : List α) (s0 : M) :
    l.foldl (fun s x => s + f x) s0 = s0 + (l.map f).sum := by
  induction l generalizing s0 with
  | nil => simp
  | cons a t ih => simp [List.foldl_cons, ih, add_assoc]

/-- The distribution loop counts, per bucket, the reviews with that rating. -/
theorem foldl_update_count (l : List Review) (d0 : ℕ → ℕ) (k : ℕ) :
    (l.foldl (fun d r => Function.update d r.rating (d r.rating + 1)) d0) k
      = d0 k + l.countP (fun r => r.rating == k) := by
  induction l generalizing d0 with
  | nil => simp
  | cons a t ih =>
    simp only [List.foldl_cons, ih, List.countP_cons]
    by_cases h : a.rating = k
    · subst h
      simp [Function.update_same]
      omega
    · simp [Function.update_noteq (Ne.symm h), h]

/-- `keyDemand` as a mapped sum. -/
theorem keyDemand_eq (items : List OrderLineItem) (k : InvKey) :
    keyDemand items k = (items.map (fun it => if lineKey it = k then (it.quantity : ℤ) else 0)).sum := by
  unfold keyDemand
  rw [foldl_add_eq]
  simp

/-- The reserve loop raises each key's `reserved` by the order's demand. -/
theorem reserveAll_reserved (items : List OrderLineItem) (s : Store) (k : InvKey) :
    ((reserveAll items s) k).reserved = (s k).reserved + keyDemand items k := by
  induction items generalizing s with
  | nil => simp [reserveAll, keyDemand]
  | cons a t ih =>
    show ((reserveAll t (storeUpdate s (lineKey a) (a.quantity : ℤ) InvAction.reserve)) k).reserved = _
    rw [ih, keyDemand_eq (a :: t) k, List.map_cons, List.sum_cons, ← keyDemand_eq t k]
    by_cases h : k = lineKey a
    · simp [storeUpdate, h, applyInvAction]
      ring
    · have h2 : lineKey a ≠ k := fun hh => h hh.symm
      simp [storeUpdate, h, if_neg h2]

/-- The release loop lowers each key's `reserved` by the order's demand. -/
theorem releaseAll_reserved (items : List OrderLineItem) (s : Store) (k : InvKey) :
    ((releaseAll items s) k).reserved = (s k).reserved - keyDemand items k := by
  induction items generalizing s with
  | nil => simp [releaseAll, keyDemand]
  | cons a t ih =>
    show ((releaseAll t (storeUpdate s (lineKey a) (a.quantity : ℤ) InvAction.release)) k).reserved = _
    rw [ih, keyDemand_eq (a :: t) k, List.map_cons, List.sum_cons, ← keyDemand_eq t k]
    by_cases h : k = lineKey a
    · simp [storeUpdate, h, applyInvAction]
      ring
    · have h2 : lineKey a ≠ k := fun hh => h hh.symm
      simp [storeUpdate, h, if_neg h2]

/-- The admin table permits the transition to `cancelled` exactly in the
states the spec-modelled `canCancel` admits. -/
theorem contains_cancelled_eq_canCancel (s : OrderStatus) :
    (validTransitions s).contains OrderStatus.cancelled = canCancel s := by
  cases s <;> rfl

/-- A cancellation attempt on an already-cancelled order is a no-op. -/
theorem cancelAttempt_cancelled (items : List OrderLineItem) (st : LifeState)
    (h : st.status = OrderStatus.cancelled) (p : CancelPath) :
    cancelAttempt items st p = st := by
  cases p <;> simp [cancelAttempt, h, canCancel, validTransitions]

/-- Any sequence of attempts on an already-cancelled order is a no-op. -/
theorem runCancels_cancelled (items : List OrderLineItem) (st : LifeState)
    (h : st.status = OrderStatus.cancelled) (paths : List CancelPath) :
    runCancels items st paths = st := by
  induction paths with
  | nil => rfl
  | cons p rest ih =>
    show runCancels items (cancelAttempt items st p) rest = st
    rw [cancelAttempt_cancelled items st h p, ih]

/-- Unfolding one call of a stock-call sequence. -/
theorem runStock_cons (b : Bool) (inv : Inv) (op : StockOp) (ops : List StockOp) :
    runStock b inv (op :: ops) = runStock b ((stepStock b inv op).getD inv) ops := rfl

/-! ## Claim theorems -/

/-- C8 (counterexample): the claim says any requested transition outside
the table `pending → confirmed → processing → ready_for_shipment → shipped
→ out_for_delivery → delivered → refunded` (plus `cancelled` from the
first three states) is rejected, but `updateOrderStatus` accepts the
direct transition `shipped → delivered`, which is outside that chain. -/
theorem status_transition_extra_edge :
    statusUpdateAllowed OrderStatus.shipped OrderStatus.delivered = true ∧
    (specTransitionTable OrderStatus.shipped).contains OrderStatus.delivered = false ∧
    applyStatusUpdate OrderStatus.shipped OrderStatus.delivered = OrderStatus.delivered := by
  refine ⟨rfl, rfl, rfl⟩

/-- C8 (amended): the accepted transitions are exactly the spec's chain
table plus the direct edge `shipped → delivered`; `cancelled` is reachable
exactly from `pending`, `confirmed` and `processing`; the example
`shipped → processing` is rejected and a rejected request leaves the
status unchanged. -/
theorem status_transition_characterization :
    (∀ s t, statusUpdateAllowed s t =
      ((specTransitionTable s).contains t ||
        (s == OrderStatus.shipped && t == OrderStatus.delivered))) ∧
    (∀ s, statusUpdateAllowed s OrderStatus.cancelled = canCancel s) ∧
    statusUpdateAllowed OrderStatus.shipped OrderStatus.processing = false ∧
    applyStatusUpdate OrderStatus.shipped OrderStatus.processing = OrderStatus.shipped ∧
    (∀ s t, (statusUpdateAllowed s t = false ∧ applyStatusUpdate s t = s) ∨
      (statusUpdateAllowed s t = true ∧ applyStatusUpdate s t = t)) := by
  refine ⟨fun s t => ?_, fun s => ?_, rfl, rfl, fun s t => ?_⟩
  · cases s <;> cases t <;> rfl
  · cases s <;> rfl
  · by_cases h : statusUpdateAllowed s t = true
    · exact Or.inr ⟨h, by simp [applyStatusUpdate, h]⟩
    · refine Or.inl ⟨by simpa using h, by simp [applyStatusUpdate, h]⟩

/-- C5 (code bug): the second `cancelOrder` implementation sets
`order.payment.status = 'cancelled'` and only afterwards tests
`order.payment.status === 'completed'`, so the refund branch can never
run: no input ever triggers a refund, and a cancellable order whose
payment was `completed` ends with payment status `cancelled`, not
`refunded`.  It also rejects cancellation in `processing`, which the
claim permits. -/
theorem cancel_second_refund_unreachable :
    (∀ o : OrderPay, refundFlag (cancelOrderSecond o) = false) ∧
    cancelOrderSecond ⟨OrderStatus.pending, PayStatus.completed⟩ =
      Except.ok (⟨OrderStatus.cancelled, PayStatus.cancelled⟩, false) ∧
    cancelOrderSecond ⟨OrderStatus.processing, PayStatus.completed⟩ =
      Except.error CancelError.notCancellable := by
  refine ⟨fun o => ?_, rfl, rfl⟩
  by_cases h : o.status = OrderStatus.pending ∨ o.status = OrderStatus.confirmed
  · simp [cancelOrderSecond, h, refundFlag]
  · simp [cancelOrderSecond, h, refundFlag]

/-- C10: when the product has no approved review, `updateProductRating`
returns before writing anything, so the stored average, count and
distribution all keep their previous values. -/
theorem rating_empty_no_write :
    ∀ (reviews : List Review) (pid : ℕ) (p : ProductDoc),
      approvedFor reviews pid = [] → updateProductRating reviews pid p = p := by
  intro reviews pid p h
  simp [updateProductRating, h]

/-- Witness for `rating_empty_no_write`: a product whose only review is
still pending has no approved reviews, and the recompute is the
identity on it. -/
theorem rating_empty_no_write_witness :
    approvedFor [⟨1, 7, 4, ReviewStatus.pending⟩] 7 = [] ∧
    updateProductRating [⟨1, 7, 4, ReviewStatus.pending⟩] 7
        ⟨⟨3, 2, fun _ => 0⟩⟩ = ⟨⟨3, 2, fun _ => 0⟩⟩ :=
  ⟨rfl, rating_empty_no_write _ _ _ rfl⟩

/-- C2: `reserve` fails with `InsufficientStock` exactly when the quantity
exceeds the available stock (`quantity - reserved`) and backorders are
disallowed; otherwise it succeeds — even past capacity — and increments
`reserved` by the quantity while leaving `quantity`, `sold` and the
variants untouched.  With a variant SKU the same check runs against that
variant's sub-record (still using the product-level backorder flag) and
the base record is untouched. -/
theorem reserve_increments_reserved :
    ∀ (p : Product) (q : ℤ),
      (reserveItem p none q = Except.error ReserveError.insufficientStock ↔
        p.inventory.quantity - p.inventory.reserved < q ∧ p.allowBackorders = false) ∧
      (∀ p2, reserveItem p none q = Except.ok p2 →
        p2.inventory.reserved = p.inventory.reserved + q ∧
        p2.inventory.quantity = p.inventory.quantity ∧
        p2.inventory.sold = p.inventory.sold ∧
        p2.variants = p.variants) ∧
      (∀ sku, findVariant p sku = none →
        reserveItem p (some sku) q = Except.error ReserveError.variantNotFound) ∧
      (∀ sku v, findVariant p sku = some v →
        (reserveItem p (some sku) q = Except.error ReserveError.insufficientStock ↔
          v.inventory.quantity - v.inventory.reserved < q ∧ p.allowBackorders = false) ∧
        (∀ p2, reserveItem p (some sku) q = Except.ok p2 → p2.inventory = p.inventory)) := by
  intro p q
  refine ⟨?_, ?_, ?_, ?_⟩
  · by_cases h : p.inventory.quantity - p.inventory.reserved < q ∧ p.allowBackorders = false <;>
      simp [reserveItem, h]
  · intro p2 h2
    by_cases h : p.inventory.quantity - p.inventory.reserved < q ∧ p.allowBackorders = false
    · simp [reserveItem, h] at h2
    · simp [reserveItem, h] at h2
      subst h2
      simp [updateInventory, applyInvAction]
  · intro sku hfind
    simp [reserveItem, hfind]
  · intro sku v hfind
    constructor
    · by_cases h : v.inventory.quantity - v.inventory.reserved < q ∧ p.allowBackorders = false <;>
        simp [reserveItem, hfind, h]
    · intro p2 h2
      by_cases h : v.inventory.quantity - v.inventory.reserved < q ∧ p.allowBackorders = false
      · simp [reserveItem, hfind, h] at h2
      · simp [reserveItem, hfind, h] at h2
        subst h2
        simp [updateInventory]

/-- Witness for `reserve_increments_reserved`: with `quantity = 3`,
`reserved = 0`, `allowBackorders = true`, reserving 5 succeeds (backorder)
and `reserved` becomes 5 even though it exceeds `quantity`; with
`allowBackorders = false` the same call is rejected with
`InsufficientStock`. -/
theorem reserve_increments_reserved_witness :
    reserveItem ⟨⟨3, 0, 0⟩, true, []⟩ none 5 = Except.ok ⟨⟨3, 5, 0⟩, true, []⟩ ∧
    (Product.mk ⟨3, 5, 0⟩ true []).inventory.reserved =
      (Product.mk ⟨3, 0, 0⟩ true []).inventory.reserved + 5 ∧
    ((3 : ℤ) - 0 < 5 ∧ false = false) ∧
    reserveItem ⟨⟨3, 0, 0⟩, false, []⟩ none 5 = Except.error ReserveError.insufficientStock :=
  ⟨rfl,
   ((reserve_increments_reserved ⟨⟨3, 0, 0⟩, true, []⟩ 5).2.1 ⟨⟨3, 5, 0⟩, true, []⟩ rfl).1,
   by norm_num,
   (reserve_increments_reserved ⟨⟨3, 0, 0⟩, false, []⟩ 5).1.2 (by norm_num)⟩

/-- C3 (counterexample): the claim promises `0 ≤ reserved ≤ quantity`
after any individually-successful sequence, but a single successful
backorder reserve drives `reserved` above `quantity` (this is the very
example claim C2 mandates), and a single `release` — which the code never
guards — drives `reserved` below 0. -/
theorem stock_invariant_violated :
    runStock true ⟨3, 0, 0⟩ [⟨InvAction.reserve, 5⟩] = ⟨3, 5, 0⟩ ∧
    stepStock true ⟨3, 0, 0⟩ ⟨InvAction.reserve, 5⟩ = some ⟨3, 5, 0⟩ ∧
    ¬((runStock true ⟨3, 0, 0⟩ [⟨InvAction.reserve, 5⟩]).reserved ≤
      (runStock true ⟨3, 0, 0⟩ [⟨InvAction.reserve, 5⟩]).quantity) ∧
    runStock false ⟨3, 0, 0⟩ [⟨InvAction.release, 1⟩] = ⟨3, -1, 0⟩ ∧
    stepStock false ⟨3, 0, 0⟩ ⟨InvAction.release, 1⟩ = some ⟨3, -1, 0⟩ ∧
    ¬(0 ≤ (runStock false ⟨3, 0, 0⟩ [⟨InvAction.release, 1⟩]).reserved) := by
  refine ⟨rfl, rfl, by decide, rfl, rfl, by decide⟩

/-- C3 (amended): `0 ≤ reserved ≤ quantity` is preserved along a sequence
of calls only under conditions the code does not enforce: backorders
disallowed (so each successful reserve fits the available stock) and every
`sell`/`release` covering at most the currently reserved amount.  Under
those guards the invariant is an inductive invariant of the call
sequence. -/
theorem stock_invariant_guarded :
    ∀ (inv : Inv) (ops : List StockOp),
      0 ≤ inv.reserved → inv.reserved ≤ inv.quantity →
      guardedOps false inv ops = true →
      0 ≤ (runStock false inv ops).reserved ∧
        (runStock false inv ops).reserved ≤ (runStock false inv ops).quantity := by
  intro inv ops
  induction ops generalizing inv with
  | nil => intro h0 h1 _; exact ⟨h0, h1⟩
  | cons op rest ih =>
    intro h0 h1 hg
    rw [guardedOps, Bool.and_eq_true] at hg
    obtain ⟨hop, hrest⟩ := hg
    rw [runStock_cons]
    have hq : (0 : ℤ) ≤ (op.qty : ℤ) := Int.ofNat_nonneg op.qty
    cases ha : op.action with
    | reserve =>
      by_cases hav : inv.quantity - inv.reserved < (op.qty : ℤ)
      · have hstep : (stepStock false inv op).getD inv = inv := by
          simp [stepStock, ha, hav]
        rw [hstep]
        rw [hstep] at hrest
        exact ih inv h0 h1 hrest
      · have hstep : (stepStock false inv op).getD inv =
            ⟨inv.quantity, inv.reserved + (op.qty : ℤ), inv.sold⟩ := by
          simp [stepStock, ha, hav, applyInvAction]
        rw [hstep]
        rw [hstep] at hrest
        exact ih _ (by show (0 : ℤ) ≤ inv.reserved + (op.qty : ℤ); omega)
          (by show inv.reserved + (op.qty : ℤ) ≤ inv.quantity; omega) hrest
    | sell =>
      rw [ha] at hop
      simp only [decide_eq_true_eq] at hop
      have hstep : (stepStock false inv op).getD inv =
          ⟨inv.quantity - (op.qty : ℤ), inv.reserved - (op.qty : ℤ), inv.sold + (op.qty : ℤ)⟩ := by
        simp [stepStock, ha, applyInvAction]
      rw [hstep]
      rw [hstep] at hrest
      exact ih _ (by show (0 : ℤ) ≤ inv.reserved - (op.qty : ℤ); omega)
        (by show inv.reserved - (op.qty : ℤ) ≤ inv.quantity - (op.qty : ℤ); omega) hrest
    | release =>
      rw [ha] at hop
      simp only [decide_eq_true_eq] at hop
      have hstep : (stepStock false inv op).getD inv =
          ⟨inv.quantity, inv.reserved - (op.qty : ℤ), inv.sold⟩ := by
        simp [stepStock, ha, applyInvAction]
      rw [hstep]
      rw [hstep] at hrest
      exact ih _ (by show (0 : ℤ) ≤ inv.reserved - (op.qty : ℤ); omega)
        (by show inv.reserved - (op.qty : ℤ) ≤ inv.quantity; omega) hrest

/-- Witness for `stock_invariant_guarded`: from `⟨3, 0, 0⟩`, reserving 2,
selling 1 and releasing 1 are all guarded, and the invariant holds at the
end. -/
theorem stock_invariant_guarded_witness :
    (0 : ℤ) ≤ (Inv.mk 3 0 0).reserved ∧
    (Inv.mk 3 0 0).reserved ≤ (Inv.mk 3 0 0).quantity ∧
    guardedOps false ⟨3, 0, 0⟩
      [⟨InvAction.reserve, 2⟩, ⟨InvAction.sell, 1⟩, ⟨InvAction.release, 1⟩] = true ∧
    0 ≤ (runStock false ⟨3, 0, 0⟩
      [⟨InvAction.reserve, 2⟩, ⟨InvAction.sell, 1⟩, ⟨InvAction.release, 1⟩]).reserved :=
  ⟨by decide, by decide, by decide,
   (stock_invariant_guarded ⟨3, 0, 0⟩
      [⟨InvAction.reserve, 2⟩, ⟨InvAction.sell, 1⟩, ⟨InvAction.release, 1⟩]
      (by decide) (by decide) (by decide)).1⟩

/-- C4: starting from the state right after order creation (every item's
quantity reserved on top of the pre-order store), any non-empty sequence of
cancellation attempts — customer `cancelOrder` and/or admin
`updateOrderStatus('cancelled')`, in any order — ends with the order
cancelled and every inventory key's `reserved` restored to its pre-order
value: the first attempt releases each item exactly once, and every later
attempt is rejected (`canCancel` is false and the table has no transition
out of `cancelled`) and changes nothing. -/
theorem cancel_releases_exactly_once :
    ∀ (s0 : Store) (items : List OrderLineItem) (status0 : OrderStatus)
      (paths : List CancelPath) (k : InvKey),
      canCancel status0 = true → paths ≠ [] →
      (runCancels items ⟨status0, reserveAll items s0⟩ paths).status = OrderStatus.cancelled ∧
      ((runCancels items ⟨status0, reserveAll items s0⟩ paths).store k).reserved =
        (s0 k).reserved := by
  intro s0 items status0 paths k hcan hne
  cases paths with
  | nil => exact absurd rfl hne
  | cons p rest =>
    have hstep : cancelAttempt items ⟨status0, reserveAll items s0⟩ p =
        ⟨OrderStatus.cancelled, releaseAll items (reserveAll items s0)⟩ := by
      cases p with
      | customer => simp [cancelAttempt, hcan]
      | admin =>
        have hc : (validTransitions status0).contains OrderStatus.cancelled = true := by
          rw [contains_cancelled_eq_canCancel]
          exact hcan
        simp only [cancelAttempt, hc]
        simp
    have hrun : runCancels items ⟨status0, reserveAll items s0⟩ (p :: rest) =
        ⟨OrderStatus.cancelled, releaseAll items (reserveAll items s0)⟩ := by
      show runCancels items (cancelAttempt items ⟨status0, reserveAll items s0⟩ p) rest = _
      rw [hstep]
      exact runCancels_cancelled items _ rfl rest
    rw [hrun]
    refine ⟨rfl, ?_⟩
    rw [releaseAll_reserved, reserveAll_reserved]
    ring

/-- Witness for `cancel_releases_exactly_once`: an order of 2 units of
product 1 reserved against a store holding `⟨3, 0, 0⟩` everywhere, then
cancelled by the customer and again by an admin: the final state is
cancelled and `reserved` at key `(1, none)` is back at 0. -/
theorem cancel_releases_exactly_once_witness :
    canCancel OrderStatus.pending = true ∧
    ([CancelPath.customer, CancelPath.admin] ≠ ([] : List CancelPath)) ∧
    (runCancels [⟨1, none, 2⟩]
        ⟨OrderStatus.pending, reserveAll [⟨1, none, 2⟩] (fun _ => ⟨3, 0, 0⟩)⟩
        [CancelPath.customer, CancelPath.admin]).status = OrderStatus.cancelled ∧
    ((runCancels [⟨1, none, 2⟩]
        ⟨OrderStatus.pending, reserveAll [⟨1, none, 2⟩] (fun _ => ⟨3, 0, 0⟩)⟩
        [CancelPath.customer, CancelPath.admin]).store (1, none)).reserved = 0 :=
  ⟨rfl, by decide,
   (cancel_releases_exactly_once (fun _ => ⟨3, 0, 0⟩) [⟨1, none, 2⟩] OrderStatus.pending
      [CancelPath.customer, CancelPath.admin] (1, none) rfl (by decide)).1,
   (cancel_releases_exactly_once (fun _ => ⟨3, 0, 0⟩) [⟨1, none, 2⟩] OrderStatus.pending
      [CancelPath.customer, CancelPath.admin] (1, none) rfl (by decide)).2⟩

/-- C1 (counterexample): the pre-save totals hook computes
`grandTotal = items + shipping + tax - discount` with no floor at zero, so
an order whose summed item discounts exceed the rest — here a single line
item fully discounted by a fixed sale (`subtotal` 0, `discount.amount`
100) — is stored with grand total `-100`, violating "never negative". -/
theorem order_grand_total_negative :
    (orderPreSave ⟨[⟨0, none, some 100⟩], some 0,
        ⟨0, 0, 0, 0, 0⟩, ⟨0, 0, 0, 0, 0⟩⟩).totals.grandTotal = -100 ∧
    ¬(0 ≤ (orderPreSave ⟨[⟨0, none, some 100⟩], some 0,
        ⟨0, 0, 0, 0, 0⟩, ⟨0, 0, 0, 0, 0⟩⟩).totals.grandTotal) := by
  refine ⟨by norm_num [orderPreSave, computeTotals], ?_⟩
  norm_num [orderPreSave, computeTotals]

/-- C1 (amended): on every save the hook stores
`grandTotal = items + shipping + tax - discount` exactly (no rounding),
with each component reduced from the stored line items, and copies the
result into `payment.amount`, so the stored totals can never drift from
the stored line items (saving again is the identity on the totals).  The
grand total is non-negative only under the additional hypothesis that the
summed discounts do not exceed the other components — the hook itself
never floors it. -/
theorem order_grand_total_equation :
    ∀ (o : OrderDoc),
      (orderPreSave o).totals.grandTotal =
        (orderPreSave o).totals.items + (orderPreSave o).totals.shipping +
          (orderPreSave o).totals.tax - (orderPreSave o).totals.discount ∧
      (orderPreSave o).totals.items = ((orderPreSave o).items.map (fun it => it.subtotal)).sum ∧
      (orderPreSave o).totals.tax = ((orderPreSave o).items.map (fun it => it.tax.getD 0)).sum ∧
      (orderPreSave o).totals.discount =
        ((orderPreSave o).items.map (fun it => it.discountAmount.getD 0)).sum ∧
      (orderPreSave o).paymentAmount = (orderPreSave o).totals ∧
      orderPreSave (orderPreSave o) = orderPreSave o ∧
      ((orderPreSave o).totals.discount ≤
          (orderPreSave o).totals.items + (orderPreSave o).totals.shipping +
            (orderPreSave o).totals.tax →
        0 ≤ (orderPreSave o).totals.grandTotal) := by
  intro o
  refine ⟨rfl, ?_, ?_, ?_, rfl, rfl, ?_⟩
  · show (computeTotals o.items o.shippingCost).items = (o.items.map (fun it => it.subtotal)).sum
    show o.items.foldl (fun s it => s + it.subtotal) 0 = _
    rw [foldl_add_eq]
    ring
  · show (computeTotals o.items o.shippingCost).tax = (o.items.map (fun it => it.tax.getD 0)).sum
    show o.items.foldl (fun s it => s + it.tax.getD 0) 0 = _
    rw [foldl_add_eq]
    ring
  · show (computeTotals o.items o.shippingCost).discount =
      (o.items.map (fun it => it.discountAmount.getD 0)).sum
    show o.items.foldl (fun s it => s + it.discountAmount.getD 0) 0 = _
    rw [foldl_add_eq]
    ring
  · intro h
    have : (orderPreSave o).totals.grandTotal =
        (orderPreSave o).totals.items + (orderPreSave o).totals.shipping +
          (orderPreSave o).totals.tax - (orderPreSave o).totals.discount := rfl
    rw [this]
    linarith

/-- Witness for `order_grand_total_equation`: a two-item order with
shipping 5, whose discounts (3) stay below `items + shipping + tax`,
stores grand total `10 + 20 + 5 + 2 - 3 = 34 ≥ 0`. -/
theorem order_grand_total_equation_witness :
    (orderPreSave ⟨[⟨10, some 1, some 3⟩, ⟨20, some 1, none⟩], some 5,
        ⟨0, 0, 0, 0, 0⟩, ⟨0, 0, 0, 0, 0⟩⟩).totals.discount ≤
      (orderPreSave ⟨[⟨10, some 1, some 3⟩, ⟨20, some 1, none⟩], some 5,
          ⟨0, 0, 0, 0, 0⟩, ⟨0, 0, 0, 0, 0⟩⟩).totals.items +
        (orderPreSave ⟨[⟨10, some 1, some 3⟩, ⟨20, some 1, none⟩], some 5,
            ⟨0, 0, 0, 0, 0⟩, ⟨0, 0, 0, 0, 0⟩⟩).totals.shipping +
        (orderPreSave ⟨[⟨10, some 1, some 3⟩, ⟨20, some 1, none⟩], some 5,
            ⟨0, 0, 0, 0, 0⟩, ⟨0, 0, 0, 0, 0⟩⟩).totals.tax ∧
    0 ≤ (orderPreSave ⟨[⟨10, some 1, some 3⟩, ⟨20, some 1, none⟩], some 5,
        ⟨0, 0, 0, 0, 0⟩, ⟨0, 0, 0, 0, 0⟩⟩).totals.grandTotal :=
  ⟨by norm_num [orderPreSave, computeTotals],
   (order_grand_total_equation ⟨[⟨10, some 1, some 3⟩, ⟨20, some 1, none⟩], some 5,
      ⟨0, 0, 0, 0, 0⟩, ⟨0, 0, 0, 0, 0⟩⟩).2.2.2.2.2.2
     (by norm_num [orderPreSave, computeTotals])⟩

/-- C6 (counterexample): the claim says an application whose coupon "does
not exist or is not active or is outside its window" is rejected, but the
lookup query simply finds nothing in those cases and `createOrder`
proceeds without a discount and without any error: here an inactive
`SAVE20` yields `noCoupon` — the silent path — not a rejection. -/
theorem coupon_missing_not_rejected :
    couponCheck [⟨"SAVE20", false, 0, none, none, 0, none, some 100,
        DiscountType.fixed, 20, none, false⟩] "SAVE20" 0 0 90 = CouponOutcome.noCoupon ∧
    CouponOutcome.noCoupon ≠ CouponOutcome.rejectedUsageLimit ∧
    CouponOutcome.noCoupon ≠ CouponOutcome.rejectedUserLimit ∧
    CouponOutcome.noCoupon ≠ CouponOutcome.rejectedMinimumPurchase := by
  refine ⟨rfl, by decide, by decide, by decide⟩

/-- C6 (amended): a coupon found by the lookup is indeed active, started,
and unexpired with the matching code; the three later validations — global
usage limit, the caller's per-user limit, and the minimum purchase — are
each rejected with a 400 in that order; but a coupon that does not exist,
is inactive, or is outside its window is silently ignored (the order
proceeds couponless) rather than rejected. -/
theorem coupon_validation_outcomes :
    ∀ (coupons : List Coupon) (code : String) (now : ℤ) (userUsage : ℕ) (subtotal : ℚ),
      (findActiveCoupon coupons code now = none →
        couponCheck coupons code now userUsage subtotal = CouponOutcome.noCoupon) ∧
      (∀ c, findActiveCoupon coupons code now = some c →
        (c.code = code ∧ c.isActive = true ∧ c.startDate ≤ now ∧
          (∀ e, c.endDate = some e → now ≤ e)) ∧
        (usageLimitExceeded c = true →
          couponCheck coupons code now userUsage subtotal = CouponOutcome.rejectedUsageLimit) ∧
        (usageLimitExceeded c = false → userLimitExceeded c userUsage = true →
          couponCheck coupons code now userUsage subtotal = CouponOutcome.rejectedUserLimit) ∧
        (usageLimitExceeded c = false → userLimitExceeded c userUsage = false →
          belowMinimumPurchase c subtotal = true →
          couponCheck coupons code now userUsage subtotal =
            CouponOutcome.rejectedMinimumPurchase) ∧
        (usageLimitExceeded c = false → userLimitExceeded c userUsage = false →
          belowMinimumPurchase c subtotal = false →
          couponCheck coupons code now userUsage subtotal = CouponOutcome.applied c)) := by
  intro coupons code now userUsage subtotal
  constructor
  · intro h
    simp [couponCheck, h]
  · intro c hfind
    have hpred := List.find?_some hfind
    simp only [Bool.and_eq_true, beq_iff_eq, decide_eq_true_eq] at hpred
    refine ⟨⟨hpred.1.1.1, hpred.1.1.2, hpred.1.2, ?_⟩, ?_, ?_, ?_, ?_⟩
    · intro e he
      have := hpred.2
      rw [he] at this
      simpa using this
    · intro h1
      simp [couponCheck, hfind, h1]
    · intro h1 h2
      simp [couponCheck, hfind, h1, h2]
    · intro h1 h2 h3
      simp [couponCheck, hfind, h1, h2, h3]
    · intro h1 h2 h3
      simp [couponCheck, hfind, h1, h2, h3]

/-- Witness for `coupon_validation_outcomes`: the spec's own example — an
active fixed-$20 `SAVE20` with `minimumPurchase = 100` against a $90
subtotal — is found by the lookup and rejected on the minimum-purchase
check. -/
theorem coupon_validation_outcomes_witness :
    findActiveCoupon [⟨"SAVE20", true, 0, none, none, 0, none, some 100,
        DiscountType.fixed, 20, none, false⟩] "SAVE20" 0 =
      some ⟨"SAVE20", true, 0, none, none, 0, none, some 100,
        DiscountType.fixed, 20, none, false⟩ ∧
    belowMinimumPurchase ⟨"SAVE20", true, 0, none, none, 0, none, some 100,
        DiscountType.fixed, 20, none, false⟩ 90 = true ∧
    couponCheck [⟨"SAVE20", true, 0, none, none, 0, none, some 100,
        DiscountType.fixed, 20, none, false⟩] "SAVE20" 0 0 90 =
      CouponOutcome.rejectedMinimumPurchase :=
  ⟨by decide, by decide,
   ((coupon_validation_outcomes [⟨"SAVE20", true, 0, none, none, 0, none, some 100,
        DiscountType.fixed, 20, none, false⟩] "SAVE20" 0 0 90).2
      ⟨"SAVE20", true, 0, none, none, 0, none, some 100,
        DiscountType.fixed, 20, none, false⟩ (by decide)).2.2.2.1
     (by decide) (by decide) (by decide)⟩

/-- C7 (counterexample): the claim says a fixed coupon's discount is
`min(value, subtotal)`, but `createOrder` records the full
`discountValue`: a fixed $50 coupon on a $30 subtotal yields discount 50
(the subtotal is separately floored at 0), not `min(50, 30) = 30`. -/
theorem fixed_discount_not_capped :
    couponDiscountAmount ⟨"C", true, 0, none, none, 0, none, none,
        DiscountType.fixed, 50, none, false⟩ 30 = 50 ∧
    couponDiscountAmount ⟨"C", true, 0, none, none, 0, none, none,
        DiscountType.fixed, 50, none, false⟩ 30 ≠ min 50 30 ∧
    min (50 : ℚ) 30 = 30 ∧
    applyCouponToSubtotal ⟨"C", true, 0, none, none, 0, none, none,
        DiscountType.fixed, 50, none, false⟩ 30 = 0 := by
  refine ⟨rfl, by norm_num [couponDiscountAmount], by norm_num, ?_⟩
  show max 0 ((30 : ℚ) - couponDiscountAmount _ 30) = 0
  norm_num [couponDiscountAmount]

/-- C7 (amended): percentage coupons discount `subtotal * value/100`,
capped by a set (truthy) `maxDiscountAmount`; fixed coupons discount the
full `value`, uncapped — only the resulting subtotal is floored at 0 —
while the cart calculator's `calculateDiscount` does return
`min(value, subtotal)`; shipping coupons are computed against the shipping
total (percentage without the `maxDiscountAmount` cap, fixed as
`min(value, shippingCost)`) and the resulting shipping cost is floored
at 0. -/
theorem coupon_discount_formulas :
    ∀ (c : Coupon) (subtotal shippingCost : ℚ) (cc : CartCoupon),
      (c.discountType = DiscountType.percentage → c.maxDiscountAmount = none →
        couponDiscountAmount c subtotal = subtotal * (c.discountValue / 100)) ∧
      (∀ m, c.discountType = DiscountType.percentage → c.maxDiscountAmount = some m →
        m ≠ 0 →
        couponDiscountAmount c subtotal = min (subtotal * (c.discountValue / 100)) m) ∧
      (c.discountType = DiscountType.fixed → couponDiscountAmount c subtotal = c.discountValue) ∧
      (c.appliesToShipping = false →
        applyCouponToSubtotal c subtotal = max 0 (subtotal - couponDiscountAmount c subtotal) ∧
        0 ≤ applyCouponToSubtotal c subtotal) ∧
      (c.appliesToShipping = true →
        (c.discountType = DiscountType.percentage →
          finalShippingCost (some c) shippingCost =
            max 0 (shippingCost - shippingCost * (c.discountValue / 100))) ∧
        (c.discountType = DiscountType.fixed →
          finalShippingCost (some c) shippingCost =
            max 0 (shippingCost - min c.discountValue shippingCost)) ∧
        0 ≤ finalShippingCost (some c) shippingCost) ∧
      (cc.minPurchase ≤ subtotal → cc.discountType = CartDiscountType.fixed →
        calculateDiscount cc subtotal = min cc.value subtotal) := by
  intro c subtotal shippingCost cc
  refine ⟨?_, ?_, ?_, ?_, ?_, ?_⟩
  · intro ht hm
    simp [couponDiscountAmount, ht, hm]
  · intro m ht hm hm0
    simp [couponDiscountAmount, ht, hm, hm0]
  · intro ht
    simp [couponDiscountAmount, ht]
  · intro hs
    refine ⟨by simp [applyCouponToSubtotal, hs], ?_⟩
    simp [applyCouponToSubtotal, hs]
  · intro hs
    refine ⟨?_, ?_, ?_⟩
    · intro ht
      simp [finalShippingCost, hs, shippingDiscountAmount, ht]
    · intro ht
      simp [finalShippingCost, hs, shippingDiscountAmount, ht]
    · simp [finalShippingCost, hs]
  · intro hmin ht
    rw [calculateDiscount, if_neg (not_lt.mpr hmin), ht]

/-- Witness for `coupon_discount_formulas`: a 10%-off coupon capped at $5
on a $100 subtotal gives `min(10, 5) = 5`, and the cart calculator on a
fixed $20 coupon with a $120 subtotal gives `min(20, 120) = 20`. -/
theorem coupon_discount_formulas_witness :
    couponDiscountAmount ⟨"TEN", true, 0, none, none, 0, none, none,
        DiscountType.percentage, 10, some 5, false⟩ 100 =
      min ((100 : ℚ) * (10 / 100)) 5 ∧
    calculateDiscount ⟨CartDiscountType.fixed, 20, 100⟩ 120 = min 20 120 :=
  ⟨(coupon_discount_formulas ⟨"TEN", true, 0, none, none, 0, none, none,
        DiscountType.percentage, 10, some 5, false⟩ 100 0
        ⟨CartDiscountType.fixed, 20, 100⟩).2.1 5 rfl rfl (by norm_num),
   (coupon_discount_formulas ⟨"TEN", true, 0, none, none, 0, none, none,
        DiscountType.percentage, 10, some 5, false⟩ 120 0
        ⟨CartDiscountType.fixed, 20, 100⟩).2.2.2.2.2 (by norm_num) rfl⟩

/-- The full-recompute characterization of `updateProductRating` when the
product has at least one approved review: the stored average is the mean
of the approved ratings rounded to one decimal, the stored count is their
number, and each distribution bucket counts the approved reviews with that
rating. -/
theorem updateProductRating_recomputes (reviews : List Review) (pid : ℕ) (p : ProductDoc)
    (h : 0 < (approvedFor reviews pid).length) :
    (updateProductRating reviews pid p).ratings.average =
      round1 ((((approvedFor reviews pid).map (fun x => (x.rating : ℚ))).sum) /
        ((approvedFor reviews pid).length : ℚ)) ∧
    (updateProductRating reviews pid p).ratings.count = (approvedFor reviews pid).length ∧
    (∀ k, (updateProductRating reviews pid p).ratings.distribution k =
      (approvedFor reviews pid).countP (fun x => x.rating == k)) := by
  have hne : ¬((approvedFor reviews pid).length = 0) := Nat.pos_iff_ne_zero.mp h
  have heq : updateProductRating reviews pid p =
      ⟨⟨round1 ((((approvedFor reviews pid).foldl (fun s r => s + r.rating) 0 : ℕ) : ℚ) /
          ((approvedFor reviews pid).length : ℚ)),
        (approvedFor reviews pid).length,
        (approvedFor reviews pid).foldl
          (fun d r => Function.update d r.rating (d r.rating + 1)) (fun _ => 0)⟩⟩ := by
    unfold updateProductRating
    rw [if_neg hne]
  rw [heq]
  refine ⟨?_, rfl, ?_⟩
  · show round1 _ = round1 _
    congr 1
    rw [foldl_add_eq (fun r => r.rating) (approvedFor reviews pid) 0, zero_add,
      Nat.cast_list_sum, List.map_map]
    rfl
  · intro k
    show ((approvedFor reviews pid).foldl
      (fun d r => Function.update d r.rating (d r.rating + 1)) (fun _ => 0)) k = _
    rw [foldl_update_count]
    simp

/-- C9: approving a pending review recomputes the owning product's rating
aggregate in full from all now-approved reviews of that product — the
average becomes their mean rounded to one decimal and the 1-5 distribution
is rebuilt — and deleting an approved review does the same over the
remaining approved reviews (whenever any remain; with none the recompute
returns early, see the C10 theorem). -/
theorem rating_recompute_on_moderation :
    ∀ (reviews : List Review) (rid : ℕ) (p : ProductDoc) (r : Review),
      reviews.find? (fun x => x.id == rid) = some r →
      (∀ rs2 p2, moderateReview reviews rid ModAction.approve p = some (rs2, p2) →
        p2.ratings.average =
          round1 ((((approvedFor rs2 r.product).map (fun x => (x.rating : ℚ))).sum) /
            ((approvedFor rs2 r.product).length : ℚ)) ∧
        p2.ratings.count = (approvedFor rs2 r.product).length ∧
        (∀ k, p2.ratings.distribution k =
          (approvedFor rs2 r.product).countP (fun x => x.rating == k))) ∧
      (∀ rs2 p2, deleteReview reviews rid p = some (rs2, p2) →
        r.status = ReviewStatus.approved → 0 < (approvedFor rs2 r.product).length →
        p2.ratings.average =
          round1 ((((approvedFor rs2 r.product).map (fun x => (x.rating : ℚ))).sum) /
            ((approvedFor rs2 r.product).length : ℚ)) ∧
        p2.ratings.count = (approvedFor rs2 r.product).length ∧
        (∀ k, p2.ratings.distribution k =
          (approvedFor rs2 r.product).countP (fun x => x.rating == k))) := by
  intro reviews rid p r hfind
  have hrid : r.id = rid := by
    have := List.find?_some hfind
    simpa using this
  constructor
  · intro rs2 p2 hmod
    unfold moderateReview at hmod
    rw [hfind, Option.some_bind] at hmod
    by_cases hst : r.status = ReviewStatus.pending
    · rw [if_pos hst] at hmod
      simp only [Option.some.injEq, Prod.mk.injEq] at hmod
      obtain ⟨hrs, hp⟩ := hmod
      subst hrs
      subst hp
      have hmem : ({ r with status := ReviewStatus.approved } : Review) ∈
          reviews.map (fun x =>
            if x.id == rid then { x with status := ReviewStatus.approved } else x) := by
        have hr : r ∈ reviews := List.mem_of_find?_eq_some hfind
        have : (fun x =>
            if x.id == rid then { x with status := ReviewStatus.approved } else x) r =
            { r with status := ReviewStatus.approved } := by
          simp [hrid]
        rw [← this]
        exact List.mem_map_of_mem _ hr
      have hpos : 0 < (approvedFor
          (reviews.map (fun x =>
            if x.id == rid then { x with status := ReviewStatus.approved } else x))
          r.product).length := by
        refine List.length_pos.mpr (List.ne_nil_of_mem (List.mem_filter.mpr ⟨hmem, ?_⟩))
        simp
      exact updateProductRating_recomputes _ r.product p hpos
    · rw [if_neg hst] at hmod
      exact absurd hmod (by simp)
  · intro rs2 p2 hdel happr hpos
    unfold deleteReview at hdel
    rw [hfind, Option.some_bind] at hdel
    simp only [Option.some.injEq, Prod.mk.injEq] at hdel
    obtain ⟨hrs, hp⟩ := hdel
    subst hrs
    rw [if_pos happr] at hp
    subst hp
    exact updateProductRating_recomputes _ r.product p hpos

/-- Witness for `rating_recompute_on_moderation`: approving the pending
4-star review of product 7 (which already has an approved 5-star review)
triggers the full recompute over both approved reviews. -/
theorem rating_recompute_on_moderation_witness :
    ([⟨1, 7, 4, ReviewStatus.pending⟩, ⟨2, 7, 5, ReviewStatus.approved⟩] :
        List Review).find? (fun x => x.id == 1) = some ⟨1, 7, 4, ReviewStatus.pending⟩ ∧
    moderateReview [⟨1, 7, 4, ReviewStatus.pending⟩, ⟨2, 7, 5, ReviewStatus.approved⟩] 1
        ModAction.approve ⟨⟨0, 0, fun _ => 0⟩⟩ =
      some ([⟨1, 7, 4, ReviewStatus.approved⟩, ⟨2, 7, 5, ReviewStatus.approved⟩],
        updateProductRating
          [⟨1, 7, 4, ReviewStatus.approved⟩, ⟨2, 7, 5, ReviewStatus.approved⟩] 7
          ⟨⟨0, 0, fun _ => 0⟩⟩) ∧
    (updateProductRating
        [⟨1, 7, 4, ReviewStatus.approved⟩, ⟨2, 7, 5, ReviewStatus.approved⟩] 7
        ⟨⟨0, 0, fun _ => 0⟩⟩).ratings.count =
      (approvedFor [⟨1, 7, 4, ReviewStatus.approved⟩, ⟨2, 7, 5, ReviewStatus.approved⟩]
        (Review.mk 1 7 4 ReviewStatus.pending).product).length :=
  ⟨rfl, rfl,
   ((rating_recompute_on_moderation
      [⟨1, 7, 4, ReviewStatus.pending⟩, ⟨2, 7, 5, ReviewStatus.approved⟩] 1
      ⟨⟨0, 0, fun _ => 0⟩⟩ ⟨1, 7, 4, ReviewStatus.pending⟩ rfl).1
      [⟨1, 7, 4, ReviewStatus.approved⟩, ⟨2, 7, 5, ReviewStatus.approved⟩]
      (updateProductRating
        [⟨1, 7, 4, ReviewStatus.approved⟩, ⟨2, 7, 5, ReviewStatus.approved⟩] 7
        ⟨⟨0, 0, fun _ => 0⟩⟩) rfl).2.1⟩

end TemuClone
